import Mathlib

/-!
Verification of the conversational session manager of the Jimmy Discord bot
(file src/cogs/ollama.py): the ChatHistory store, the server pool rotation,
the streaming decoder, and the relevant segments of the Ollama.ollama
command handler. Python values that flow through JSON and the redis store
are modelled by the inductive type PyVal; operations that can raise a
Python exception return Except PyErr.
-/

namespace Jimmy

/-- A JSON-shaped Python value: the payloads held by the in-memory thread
cache, the redis store (after json.loads), and decoded stream events. -/
inductive PyVal where
  | null
  | bool (b : Bool)
  | int (n : Int)
  | str (s : String)
  | list (xs : List PyVal)
  | dict (kvs : List (String × PyVal))

/-- The Python exceptions the modelled code can raise. -/
inductive PyErr where
  | keyError (k : String)
  | nameError (n : String)
  | typeError
  | attributeError
  | zeroDivisionError
deriving DecidableEq

/-- Lookup in a Python dict (modelled as an insertion-ordered association
list): d.get(key) and d[key] both read through this. -/
def dGet : List (String × PyVal) → String → Option PyVal
  | [], _ => Option.none
  | (k, v) :: rest, key => if k = key then Option.some v else dGet rest key

/-- Assignment d[key] = val on a Python dict: overwrites in place when the
key is present (keeping its position), else appends a new entry. -/
def dSet : List (String × PyVal) → String → PyVal → List (String × PyVal)
  | [], key, val => [(key, val)]
  | (k, v) :: rest, key, val =>
      if k = key then (k, val) :: rest else (k, v) :: dSet rest key val

/-- d.update(other) on Python dicts: inserts every entry of other into d,
in order. -/
def dUpdate (d : List (String × PyVal)) : List (String × PyVal) → List (String × PyVal)
  | [] => d
  | (k, v) :: rest => dUpdate (dSet d k v) rest

/-- Python truthiness of a JSON-shaped value. -/
def pyTruthy : PyVal → Bool
  | PyVal.null => false
  | PyVal.bool b => b
  | PyVal.int n => decide (n ≠ 0)
  | PyVal.str s => decide (s ≠ "")
  | PyVal.list xs => !xs.isEmpty
  | PyVal.dict kvs => !kvs.isEmpty

/-- Truthiness of dict.get(key), where an absent key yields None (falsy). -/
def pyTruthyOpt : Option PyVal → Bool
  | Option.none => false
  | Option.some v => pyTruthy v

/-- str.strip(): removes leading and trailing whitespace characters. -/
def pyStrip (s : String) : String :=
  String.mk (((s.data.dropWhile Char.isWhitespace).reverse.dropWhile Char.isWhitespace).reverse)

/-- Python `a or b` for an optional string a (None and "" are falsy). -/
def pyOr (a : Option String) (b : String) : String :=
  match a with
  | Option.none => b
  | Option.some s => if s = "" then b else s

/-- One lowercase hexadecimal digit, as produced by bytes.hex(). -/
def hexDigit (n : Nat) : Char :=
  if n < 10 then Char.ofNat (48 + n) else Char.ofNat (87 + n)

/-- bytes.hex(): two lowercase hex digits per byte. -/
def bytesHex (bs : List Nat) : String :=
  String.mk (bs.flatMap fun b => [hexDigit (b / 16 % 16), hexDigit (b % 16)])

/-- The state of a ChatHistory object: the in-memory cache self._internal,
and the redis durable store. The store holds, under each key, the value
parsed back from the stored JSON string; json.dumps/json.loads round-trip
the JSON-shaped values stored here, so serialization is the identity in
this model (and a stored blob is a nonempty string, hence truthy). -/
structure ChatHistory where
  cache : List (String × PyVal)
  redis : List (String × PyVal)

/-- ChatHistory._construct_message: builds a message dict; the images key
is only attached when the images argument is truthy (neither None nor
the empty list). -/
def construct_message (role content : String) (images : Option (List String)) : PyVal :=
  match images with
  | Option.some [] => PyVal.dict [("role", PyVal.str role), ("content", PyVal.str content)]
  | Option.some imgs =>
      PyVal.dict [("role", PyVal.str role), ("content", PyVal.str content),
        ("images", PyVal.list (imgs.map PyVal.str))]
  | Option.none => PyVal.dict [("role", PyVal.str role), ("content", PyVal.str content)]

/-- ChatHistory.get_thread: self._internal.get(thread, \x7b\x7d).copy().
The .copy() call succeeds on dicts and lists and raises AttributeError on
other values (only reachable if the cache was polluted with scalars). -/
def get_thread (h : ChatHistory) (t : String) : Except PyErr PyVal :=
  match dGet h.cache t with
  | Option.none => Except.ok (PyVal.dict [])
  | Option.some (PyVal.dict kvs) => Except.ok (PyVal.dict kvs)
  | Option.some (PyVal.list xs) => Except.ok (PyVal.list xs)
  | Option.some _ => Except.error PyErr.attributeError

/-- ChatHistory.load_thread: reads the store under "threads:" + id; if a
blob is present it runs self._internal.update(json.loads(value)) and
returns self.get_thread(thread_id); if absent it returns None. Note the
update merges the loaded entries at the top level of the cache. A stored
value that is not a JSON object cannot come from save_thread and would
make dict.update raise; it is modelled as TypeError. -/
def load_thread (h : ChatHistory) (t : String) : Except PyErr (ChatHistory × Option PyVal) :=
  match dGet h.redis ("threads:" ++ t) with
  | Option.none => Except.ok (h, Option.none)
  | Option.some (PyVal.dict loaded) =>
      let h2 : ChatHistory := ⟨dUpdate h.cache loaded, h.redis⟩
      match get_thread h2 t with
      | Except.error e => Except.error e
      | Except.ok c => Except.ok (h2, Option.some c)
  | Option.some _ => Except.error PyErr.typeError

/-- ChatHistory.save_thread: serializes self._internal[thread_id] (KeyError
when the thread is not resident) into the store under "threads:" + id. -/
def save_thread (h : ChatHistory) (t : String) : Except PyErr ChatHistory :=
  match dGet h.cache t with
  | Option.none => Except.error (PyErr.keyError t)
  | Option.some v => Except.ok ⟨h.cache, dSet h.redis ("threads:" ++ t) v⟩

/-- ChatHistory.add_message: appends _construct_message(role, content,
images) to self._internal[thread]["messages"]; raises KeyError when the
thread is not resident. -/
def add_message (h : ChatHistory) (t role content : String) (images : Option (List String)) :
    Except PyErr ChatHistory :=
  let new := construct_message role content images
  match dGet h.cache t with
  | Option.none => Except.error (PyErr.keyError t)
  | Option.some (PyVal.dict kvs) =>
      match dGet kvs "messages" with
      | Option.none => Except.error (PyErr.keyError "messages")
      | Option.some (PyVal.list ms) =>
          Except.ok ⟨dSet h.cache t (PyVal.dict (dSet kvs "messages" (PyVal.list (ms ++ [new])))), h.redis⟩
      | Option.some _ => Except.error PyErr.attributeError
  | Option.some _ => Except.error PyErr.typeError

/-- ChatHistory.create_thread: key = os.urandom(3).hex() (the entropy
bytes are passed in here); the thread starts with member id, the seed
round(time.time()) (passed in as now), and an empty message list; then
the system message (default or the prompt-asset file text) is appended
through add_message and the key returned. -/
def create_thread (h : ChatHistory) (memberId : Int) (now : Int) (entropy : List Nat)
    (default : Option String) (fileText : String) : Except PyErr (ChatHistory × String) :=
  let key := bytesHex entropy
  let h1 : ChatHistory :=
    ⟨dSet h.cache key (PyVal.dict
      [("member", PyVal.int memberId), ("seed", PyVal.int now), ("messages", PyVal.list [])]),
     h.redis⟩
  match add_message h1 key "system" (pyOr default fileText) Option.none with
  | Except.error e => Except.error e
  | Except.ok h2 => Except.ok (h2, key)

/-- ChatHistory.get_history: returns [] when the thread is not resident,
else a copy of self._internal[thread]["messages"]. -/
def get_history (h : ChatHistory) (t : String) : Except PyErr PyVal :=
  match dGet h.cache t with
  | Option.none => Except.ok (PyVal.list [])
  | Option.some (PyVal.dict kvs) =>
      match dGet kvs "messages" with
      | Option.none => Except.error (PyErr.keyError "messages")
      | Option.some (PyVal.list ms) => Except.ok (PyVal.list ms)
      | Option.some (PyVal.dict kvs2) => Except.ok (PyVal.dict kvs2)
      | Option.some _ => Except.error PyErr.attributeError
  | Option.some _ => Except.error PyErr.typeError

/-- ChatHistory.find_thread: checks the cache (via get_thread), then the
store (via load_thread); falsy results fall through to None. -/
def find_thread (h : ChatHistory) (t : String) : Except PyErr (ChatHistory × Option PyVal) :=
  match get_thread h t with
  | Except.error e => Except.error e
  | Except.ok c =>
      if pyTruthy c then Except.ok (h, Option.some c)
      else
        match load_thread h t with
        | Except.error e => Except.error e
        | Except.ok (h2, Option.some dv) =>
            if pyTruthy dv then Except.ok (h2, Option.some dv) else Except.ok (h2, Option.none)
        | Except.ok (h2, Option.none) => Except.ok (h2, Option.none)

/-! Server pool (Ollama.next_server), streaming decoder (Ollama.ollama_stream),
and liveness prober (Ollama.check_server). -/

/-- Ollama.next_server: if increment then self.last_server += 1; returns
SERVER_KEYS[self.last_server % len(SERVER_KEYS)]. The configured key list
and the cursor are passed explicitly; the new cursor is returned with the
key. An empty key list makes the modulo raise ZeroDivisionError. -/
def next_server (keys : List String) (lastServer : Nat) (increment : Bool) :
    Except PyErr (Nat × String) :=
  let c := if increment then lastServer + 1 else lastServer
  if h : 0 < keys.length then
    Except.ok (c, keys.get ⟨c % keys.length, Nat.mod_lt c h⟩)
  else Except.error PyErr.zeroDivisionError

/-- The keys produced by n successive next_server(increment=True) calls,
threading the cursor through. -/
def run_next (keys : List String) (c : Nat) : Nat → List String
  | 0 => []
  | Nat.succ n =>
      match next_server keys c true with
      | Except.ok (c2, k) => k :: run_next keys c2 n
      | Except.error _ => []

/-- Ollama.ollama_stream: for each byte line of the response body, decode
as UTF-8 with replacement, strip, try json.loads; on JSONDecodeError log
and continue, else yield the decoded object. The two standard-library
calls bytes.decode("utf-8", "replace") and json.loads are opaque external
collaborators here, passed as the total function decode (the replace
handler never raises) and the partial function loads (None models a
JSONDecodeError). -/
def ollama_stream (decode : List Nat → String) (loads : String → Option PyVal) :
    List (List Nat) → List PyVal
  | [] => []
  | line :: rest =>
      match loads (pyStrip (decode line)) with
      | Option.none => ollama_stream decode loads rest
      | Option.some j => j :: ollama_stream decode loads rest

/-- The outcome of the GET /api/tags probe issued by Ollama.check_server
inside a session with ClientTimeout(10): either an HTTP response with a
status code, or one of the two exceptions the code catches. -/
inductive ProbeOutcome where
  | response (status : Nat)
  | connectionError
  | timeoutError

/-- Ollama.check_server: returns resp.ok on a response (aiohttp defines
resp.ok as status < 400), and False when aiohttp.ClientConnectionError or
asyncio.TimeoutError is raised. -/
def check_server : ProbeOutcome → Bool
  | ProbeOutcome.response status => decide (status < 400)
  | ProbeOutcome.connectionError => false
  | ProbeOutcome.timeoutError => false

/-! Session orchestrator segments of Ollama.ollama. -/

/-- Lines 561 to 568 of the command handler: when no context key was
supplied the code runs
context = self.history.create_thread(ctx.user, system_query)
but no binding named system_query exists anywhere in the module, so
evaluating the call arguments raises NameError before create_thread is
invoked. When a context key was supplied, the code tests
self.history.get_thread(context) is None, which is always False because
get_thread returns a dict (possibly empty), never None; so the find_thread
fallback branch is dead and the context passes through unchanged (the
truthiness guard at the top of the handler has already run). -/
def resolve_thread (h : ChatHistory) (context : Option String) :
    Except PyErr (ChatHistory × String) :=
  match context with
  | Option.none => Except.error (PyErr.nameError "system_query")
  | Option.some c =>
      match get_thread h c with
      | Except.error e => Except.error e
      | Except.ok _ => Except.ok (h, c)

/-- The cancellation flag of the OllamaView Stop button, as observed at a
check point: cancelAfter = some n means the user pressed Stop once n
chunks had been consumed (n = 0: before consumption began); none means
the flag is never set during the turn. -/
def cancel_is_set (cancelAfter : Option Nat) (written : Nat) : Bool :=
  match cancelAfter with
  | Option.none => false
  | Option.some n => decide (n ≤ written)

/-- The streaming loop body of lines 610 to 629: each decoded event's
message content is written to the buffer, then the cancellation flag is
checked and, when set, the loop breaks (UI edits elided). The chunks are
the message.content strings of the decoded events, in order. -/
def consume_stream (cancelAfter : Option Nat) : List String → Nat → List String
  | [], _ => []
  | chunk :: rest, written =>
      chunk ::
        (if cancel_is_set cancelAfter (written + 1) then []
         else consume_stream cancelAfter rest (written + 1))

/-- The result of the STREAM_GENERATE and PERSIST segment: the updated
store state, the accumulated buffer, and the title of the embed reported
to the requester (the code sets it to "Done!" on this path whether or not
the stream was cancelled). -/
structure TurnResult where
  hist : ChatHistory
  buffer : String
  title : String

/-- Lines 607 to 637 of the command handler: the guard
if not view.cancel.is_set() runs the streaming loop; afterwards,
unconditionally, the user turn and the accumulated assistant buffer are
appended via add_message and the thread is saved via save_thread, and the
embed title becomes "Done!". There is no cancellation branch that skips
the persist calls or reports a cancelled notice in this segment. -/
def stream_generate_persist (h : ChatHistory) (context query : String)
    (images : Option (List String)) (chunks : List String) (cancelAfter : Option Nat) :
    Except PyErr TurnResult :=
  let consumed :=
    if cancel_is_set cancelAfter 0 then [] else consume_stream cancelAfter chunks 0
  let buffer := String.join consumed
  match add_message h context "user" query images with
  | Except.error e => Except.error e
  | Except.ok h1 =>
      match add_message h1 context "assistant" buffer Option.none with
      | Except.error e => Except.error e
      | Except.ok h2 =>
          match save_thread h2 context with
          | Except.error e => Except.error e
          | Except.ok h3 => Except.ok ⟨h3, buffer, "Done!"⟩

/-- Lines 657 to 670 of the command handler: if line.get("done") is truthy
the four timing counters are read by direct subscription (KeyError when
absent; TypeError inside get_time_spent when not a number) and a timings
description is reported. get_time_spent itself does float arithmetic on
nanoseconds and is passed in as the opaque formatter fmt. Returns the
reported description, or None when the done field is absent or falsy. -/
def timing_step (fmt : Int → String) (line : List (String × PyVal)) :
    Except PyErr (Option String) :=
  if pyTruthyOpt (dGet line "done") then
    match dGet line "total_duration" with
    | Option.none => Except.error (PyErr.keyError "total_duration")
    | Option.some (PyVal.int td) =>
        match dGet line "load_duration" with
        | Option.none => Except.error (PyErr.keyError "load_duration")
        | Option.some (PyVal.int ld) =>
            match dGet line "prompt_eval_duration" with
            | Option.none => Except.error (PyErr.keyError "prompt_eval_duration")
            | Option.some (PyVal.int ped) =>
                match dGet line "eval_duration" with
                | Option.none => Except.error (PyErr.keyError "eval_duration")
                | Option.some (PyVal.int ed) =>
                    Except.ok (Option.some
                      ("Total: " ++ fmt td ++ "\nLoad: " ++ fmt ld ++
                       "\nPrompt Eval: " ++ fmt ped ++ "\nEval: " ++ fmt ed))
                | Option.some _ => Except.error PyErr.typeError
            | Option.some _ => Except.error PyErr.typeError
        | Option.some _ => Except.error PyErr.typeError
    | Option.some _ => Except.error PyErr.typeError
  else Except.ok Option.none

/-! Helper lemmas about the dict operations. -/

theorem dGet_dSet_self (d : List (String × PyVal)) (k : String) (v : PyVal) :
    dGet (dSet d k v) k = Option.some v := by
  induction d with
  | nil => simp [dGet, dSet]
  | cons hd tl ih =>
      obtain ⟨k1, v1⟩ := hd
      by_cases hk : k1 = k
      · simp [dGet, dSet, hk]
      · simp [dGet, dSet, hk, ih]

theorem dGet_dSet_ne (d : List (String × PyVal)) (k k2 : String) (v : PyVal)
    (hne : k2 ≠ k) : dGet (dSet d k v) k2 = dGet d k2 := by
  have hnk : ¬k = k2 := fun h => hne h.symm
  induction d with
  | nil => simp only [dSet, dGet, if_neg hnk]
  | cons hd tl ih =>
      obtain ⟨k1, v1⟩ := hd
      simp only [dSet]
      by_cases hk : k1 = k
      · have h2 : ¬k1 = k2 := fun h => hne (h ▸ hk)
        rw [if_pos hk]
        simp only [dGet, if_neg h2]
      · rw [if_neg hk]
        simp only [dGet, ih]

theorem dSet_dSet_self (d : List (String × PyVal)) (k : String) (v w : PyVal) :
    dSet (dSet d k v) k w = dSet d k w := by
  induction d with
  | nil => simp [dSet]
  | cons hd tl ih =>
      obtain ⟨k1, v1⟩ := hd
      by_cases hk : k1 = k <;> simp [dSet, hk, ih]

theorem dGet_dUpdate_none (upd : List (String × PyVal)) (d : List (String × PyVal))
    (t : String) (h : dGet upd t = Option.none) :
    dGet (dUpdate d upd) t = dGet d t := by
  induction upd generalizing d with
  | nil => simp [dUpdate]
  | cons hd tl ih =>
      obtain ⟨k, v⟩ := hd
      by_cases hk : k = t
      · simp [dGet, hk] at h
      · simp only [dGet, hk, if_false] at h
        simp only [dUpdate]
        rw [ih _ h, dGet_dSet_ne _ _ _ _ (fun he => hk he.symm)]

/-! Helper lemmas about the streaming loop and the cursor loop. -/

theorem consume_stream_take (n : Nat) (chunks : List String) (w : Nat) (hw : w < n) :
    consume_stream (Option.some n) chunks w = chunks.take (n - w) := by
  induction chunks generalizing w with
  | nil => simp [consume_stream]
  | cons c rest ih =>
      by_cases hc : n ≤ w + 1
      · have hn : n - w = 1 := by omega
        simp [consume_stream, cancel_is_set, hc, hn]
      · have hn : n - w = (n - (w + 1)) + 1 := by omega
        simp [consume_stream, cancel_is_set, hc, hn, ih (w + 1) (by omega)]

theorem consumed_eq_take (n : Nat) (chunks : List String) :
    (if cancel_is_set (Option.some n) 0 then [] else consume_stream (Option.some n) chunks 0) =
      chunks.take n := by
  by_cases h0 : n = 0
  · simp [h0, cancel_is_set]
  · have := consume_stream_take n chunks 0 (by omega)
    simp only [cancel_is_set, decide_eq_true_eq]
    rw [if_neg (by omega)]
    simpa using this

theorem run_next_succ (keys : List String) (c n : Nat) (h : 0 < keys.length) :
    run_next keys c (n + 1) =
      keys.get ⟨(c + 1) % keys.length, Nat.mod_lt _ h⟩ :: run_next keys (c + 1) n := by
  simp [run_next, next_server, h]

theorem run_next_getD (keys : List String) (c n : Nat) (h : 0 < keys.length) :
    run_next keys c n =
      (List.range n).map (fun i => keys.getD ((c + 1 + i) % keys.length) "") := by
  induction n generalizing c with
  | zero => simp [run_next]
  | succ n ih =>
      rw [run_next_succ keys c n h, List.range_succ_eq_map, List.map_cons, ih (c + 1),
        List.map_map]
      congr 1
      · rw [List.getD_eq_getElem _ _ (by simpa using Nat.mod_lt (c + 1) h)]
        simp [List.get_eq_getElem]
      · apply List.map_congr_left
        intro i _
        have harg : c + 1 + 1 + i = c + 1 + (i + 1) := by omega
        simp [Function.comp, harg]

theorem run_next_eq_rotate (keys : List String) (c : Nat) (h : 0 < keys.length) :
    run_next keys c keys.length = keys.rotate (c + 1) := by
  rw [run_next_getD keys c keys.length h]
  apply List.ext_getElem
  · simp
  · intro i h1 h2
    rw [List.getElem_map, List.getElem_range, List.getElem_rotate,
      List.getD_eq_getElem _ _ (by simpa using Nat.mod_lt (c + 1 + i) h)]
    have harg : i + (c + 1) = c + 1 + i := Nat.add_comm i (c + 1)
    simp only [harg]

theorem run_next_period (keys : List String) (c n : Nat) (h : 0 < keys.length) :
    run_next keys (c + keys.length) n = run_next keys c n := by
  rw [run_next_getD _ _ _ h, run_next_getD _ _ _ h]
  apply List.map_congr_left
  intro i _
  have harg : c + keys.length + 1 + i = (c + 1 + i) + keys.length := by omega
  rw [harg, Nat.add_mod_right]

theorem ollama_stream_eq_filterMap (decode : List Nat → String)
    (loads : String → Option PyVal) (lines : List (List Nat)) :
    ollama_stream decode loads lines = lines.filterMap (fun l => loads (pyStrip (decode l))) := by
  induction lines with
  | nil => rfl
  | cons l rest ih =>
      simp only [ollama_stream]
      cases hl : loads (pyStrip (decode l)) <;> simp [List.filterMap_cons, hl, ih]

/-! The claims. -/

/-- C2: for every chat request that supplies no existing thread key, the
handler is claimed to create a new thread seeded with the system prompt
and resolve to a reported message. In the code the no-context branch
evaluates the undefined name system_query, so it raises NameError before
create_thread can run, for every store state: the path escapes as an
unhandled exception and no thread is created. -/
theorem c2_no_context_raises_nameerror (h : ChatHistory) :
    resolve_thread h Option.none = Except.error (PyErr.nameError "system_query") := rfl

/-- C6: for a pool of N configured backends and any starting cursor, N
successive next_server(increment=True) calls return a permutation of the
configured keys (each exactly once when the keys are distinct), the
output sequence is periodic with period N in the cursor, and a call with
increment=False returns the key at the current cursor position and
leaves the cursor unchanged. -/
theorem c6_next_server_round_robin (keys : List String) (c : Nat) (h : 0 < keys.length) :
    (run_next keys c keys.length).Perm keys ∧
    (keys.Nodup → ∀ k ∈ keys, (run_next keys c keys.length).count k = 1) ∧
    (∀ n : Nat, run_next keys (c + keys.length) n = run_next keys c n) ∧
    next_server keys c false = Except.ok (c, keys.get ⟨c % keys.length, Nat.mod_lt c h⟩) := by
  have hperm : (run_next keys c keys.length).Perm keys := by
    rw [run_next_eq_rotate keys c h]
    exact List.rotate_perm keys (c + 1)
  refine ⟨hperm, ?_, fun n => run_next_period keys c n h, by simp [next_server, h]⟩
  intro hnd k hk
  rw [hperm.count_eq]
  exact List.count_eq_one_of_mem hnd hk

/-- C6 witness: three backends, cursor 4: the next three calls return
each key once; shifting the cursor by 3 gives the same outputs; a
non-incrementing call returns the cursor position key and cursor 4. -/
theorem c6_next_server_round_robin_witness :
    (run_next ["alpha", "beta", "gamma"] 4 3).Perm ["alpha", "beta", "gamma"] ∧
    run_next ["alpha", "beta", "gamma"] (4 + 3) 2 = run_next ["alpha", "beta", "gamma"] 4 2 ∧
    next_server ["alpha", "beta", "gamma"] 4 false = Except.ok (4, "beta") := by
  have h := c6_next_server_round_robin ["alpha", "beta", "gamma"] 4 (by decide)
  exact ⟨h.1, h.2.2.1 2, h.2.2.2⟩

/-- C7: the streaming decoder yields exactly the records that parse as
JSON after UTF-8 decoding and stripping, in their original order
(filterMap over the line sequence), and a record whose parse fails is
skipped without terminating the yielded sequence early: the records
after it are still yielded. The standard-library byte decoder and JSON
parser are opaque parameters. -/
theorem c7_ollama_stream_skips_malformed (decode : List Nat → String)
    (loads : String → Option PyVal) :
    (∀ lines : List (List Nat),
      ollama_stream decode loads lines = lines.filterMap (fun l => loads (pyStrip (decode l)))) ∧
    (∀ (pre : List (List Nat)) (bad : List Nat) (post : List (List Nat)),
      loads (pyStrip (decode bad)) = Option.none →
        ollama_stream decode loads (pre ++ bad :: post) =
          ollama_stream decode loads pre ++ ollama_stream decode loads post) := by
  refine ⟨ollama_stream_eq_filterMap decode loads, ?_⟩
  intro pre bad post hbad
  rw [ollama_stream_eq_filterMap, ollama_stream_eq_filterMap, ollama_stream_eq_filterMap,
    List.filterMap_append, List.filterMap_cons, hbad]

/-- A concrete byte decoder for the C7 witness: byte line [97] decodes to
a parseable record (with surrounding whitespace to exercise strip). -/
def c7_decode : List Nat → String := fun bs => if bs = [97] then " ok " else "bad"

/-- A concrete JSON parser for the C7 witness: only "ok" parses. -/
def c7_loads : String → Option PyVal := fun s =>
  if s = "ok" then Option.some (PyVal.str "y") else Option.none

/-- C7 witness: one malformed line interleaved between two valid ones is
skipped and the stream continues past it. -/
theorem c7_ollama_stream_skips_malformed_witness :
    ollama_stream c7_decode c7_loads ([[97]] ++ [98] :: [[97]]) =
      ollama_stream c7_decode c7_loads [[97]] ++ ollama_stream c7_decode c7_loads [[97]] :=
  (c7_ollama_stream_skips_malformed c7_decode c7_loads).2 [[97]] [98] [[97]] rfl

/-- C8 counterexample: the claim says check_server returns true only on a
2xx response, but a 304 response (not a 2xx status) makes it return
true, because aiohttp resp.ok means status < 400. -/
theorem c8_check_server_counterexample :
    check_server (ProbeOutcome.response 304) = true ∧ ¬(200 ≤ 304 ∧ 304 ≤ 299) :=
  ⟨rfl, by decide⟩

/-- C8 amended: check_server returns true exactly when the probe yields
an HTTP response with status < 400 within the timeout (aiohttp resp.ok),
and returns false, rather than propagating, on a connection error or a
timeout. -/
theorem c8_check_server_ok (s : Nat) :
    (check_server (ProbeOutcome.response s) = true ↔ s < 400) ∧
    check_server ProbeOutcome.connectionError = false ∧
    check_server ProbeOutcome.timeoutError = false := by
  refine ⟨?_, rfl, rfl⟩
  simp [check_server]

/-- A serialized system message, as stored by save_thread. -/
def c3_sys : PyVal := PyVal.dict [("role", PyVal.str "system"), ("content", PyVal.str "prompt")]

/-- A serialized thread blob, exactly the shape save_thread writes:
json.dumps of the thread dict itself. -/
def c3_thread : PyVal := PyVal.dict
  [("member", PyVal.int 5), ("seed", PyVal.int 99), ("messages", PyVal.list [c3_sys])]

/-- A fresh process: empty in-memory cache, one saved thread in redis. -/
def c3_start : ChatHistory := ⟨[], [("threads:abc123", c3_thread)]⟩

/-- The cache after load_thread: the thread fields were merged into the
top level of the cache, and no entry exists under the thread id. -/
def c3_after : ChatHistory :=
  ⟨[("member", PyVal.int 5), ("seed", PyVal.int 99), ("messages", PyVal.list [c3_sys])],
   c3_start.redis⟩

/-- C3: the claim says load_thread of a stored id deserializes the thread
into the cache under its id (so get_thread then returns it) and returns
the thread. In the code self._internal.update(loaded) merges the fields
member, seed, messages of the stored blob as top-level cache entries, so
the cache has no entry under the id, get_thread returns an empty dict,
and load_thread returns that empty dict instead of the thread. The
absent-id half of the claim holds: load_thread returns None. -/
theorem c3_load_thread_merges_fields_not_thread :
    load_thread c3_start "abc123" = Except.ok (c3_after, Option.some (PyVal.dict [])) ∧
    dGet c3_after.cache "abc123" = Option.none ∧
    get_thread c3_after "abc123" = Except.ok (PyVal.dict []) ∧
    load_thread c3_start "missing" = Except.ok (c3_start, Option.none) :=
  ⟨rfl, rfl, rfl, rfl⟩

/-- The C4 round-trip run: create a thread (entropy 0xabcdef, so the id
is "abcdef"), add a user message, save, read the history, then reload
from the store into a fresh empty cache and read the history again.
Returns the pre-save and post-reload history sequences. -/
def c4_run : Except PyErr (PyVal × PyVal) :=
  match create_thread ⟨[], []⟩ 7 1700000000 [171, 205, 239] Option.none "You are Jimmy." with
  | Except.error e => Except.error e
  | Except.ok (h1, key) =>
      match add_message h1 key "user" "hi" Option.none with
      | Except.error e => Except.error e
      | Except.ok h2 =>
          match save_thread h2 key with
          | Except.error e => Except.error e
          | Except.ok h3 =>
              match get_history h3 key with
              | Except.error e => Except.error e
              | Except.ok pre =>
                  match load_thread ⟨[], h3.redis⟩ key with
                  | Except.error e => Except.error e
                  | Except.ok (h4, _) =>
                      match get_history h4 key with
                      | Except.error e => Except.error e
                      | Except.ok post => Except.ok (pre, post)

/-- C4: the claim says the message sequence survives add_message then
save_thread then a fresh load_thread (round-trip). In the code the
pre-save history is the system and user messages, but after reloading
into an empty cache get_history returns the empty sequence, because
load_thread never recreates the entry under the thread id. -/
theorem c4_roundtrip_loses_history :
    c4_run = Except.ok
      (PyVal.list
        [PyVal.dict [("role", PyVal.str "system"), ("content", PyVal.str "You are Jimmy.")],
         PyVal.dict [("role", PyVal.str "user"), ("content", PyVal.str "hi")]],
       PyVal.list []) ∧
    PyVal.list [] ≠ PyVal.list
      [PyVal.dict [("role", PyVal.str "system"), ("content", PyVal.str "You are Jimmy.")],
       PyVal.dict [("role", PyVal.str "user"), ("content", PyVal.str "hi")]] :=
  ⟨rfl, fun hEq => by injection hEq with hxs; exact List.noConfusion hxs⟩

/-- The store state created by the C5 counterexample run. -/
def c5_after : ChatHistory :=
  ⟨[("abcdef", PyVal.dict [("member", PyVal.int 7), ("seed", PyVal.int 100),
      ("messages", PyVal.list [PyVal.dict
        [("role", PyVal.str "system"), ("content", PyVal.str "p")]])])], []⟩

/-- C5 counterexample: create_thread draws os.urandom(3), three bytes,
not six: with entropy bytes ab cd ef the returned id is "abcdef", which
has 6 hexadecimal characters, not the 12 the claim requires. -/
theorem c5_thread_id_counterexample :
    create_thread ⟨[], []⟩ 7 100 [171, 205, 239] Option.none "p" =
      Except.ok (c5_after, "abcdef") ∧
    "abcdef".length = 6 ∧ ¬("abcdef".length = 12) :=
  ⟨rfl, rfl, by decide⟩

theorem bytesHex_length (bs : List Nat) : (bytesHex bs).length = 2 * bs.length := by
  induction bs with
  | nil => rfl
  | cons b rest ih =>
      simp only [bytesHex, String.length, List.flatMap_cons] at ih ⊢
      simp [List.length_append] at ih ⊢
      omega

theorem hexDigit_contained (n : Nat) (h : n < 16) :
    "0123456789abcdef".data.contains (hexDigit n) = true := by
  interval_cases n <;> decide

theorem bytesHex_all_hex (bs : List Nat) :
    ((bytesHex bs).data.all fun ch => "0123456789abcdef".data.contains ch) = true := by
  induction bs with
  | nil => rfl
  | cons b rest ih =>
      simp only [bytesHex, List.flatMap_cons, List.all_append, List.all_cons, List.all_nil] at ih ⊢
      simp only [Bool.and_eq_true] at ih ⊢
      exact ⟨⟨hexDigit_contained _ (Nat.mod_lt _ (by omega)),
        hexDigit_contained _ (Nat.mod_lt _ (by omega)), trivial⟩, ih⟩

/-- C5 amended: create_thread renders 3 random bytes (os.urandom(3)) in
hexadecimal, so the id has 6 lowercase hex characters (store key
"threads:" plus 6 hex characters), and the created thread holds exactly
one message, the system message (caller-supplied prompt, or the prompt
asset text when none given). -/
theorem c5_thread_id_amended (h : ChatHistory) (memberId now : Int) (b1 b2 b3 : Nat)
    (default : Option String) (fileText : String) (h2 : ChatHistory) (key : String)
    (hrun : create_thread h memberId now [b1, b2, b3] default fileText = Except.ok (h2, key)) :
    key = bytesHex [b1, b2, b3] ∧ key.length = 6 ∧
    (key.data.all fun ch => "0123456789abcdef".data.contains ch) = true ∧
    get_history h2 key = Except.ok (PyVal.list
      [construct_message "system" (pyOr default fileText) Option.none]) := by
  simp only [create_thread, add_message, dGet_dSet_self, dSet_dSet_self] at hrun
  simp only [construct_message] at hrun
  rw [show dGet [("member", PyVal.int memberId), ("seed", PyVal.int now),
      ("messages", PyVal.list [])] "messages" = Option.some (PyVal.list []) from rfl] at hrun
  simp only [List.nil_append] at hrun
  rw [show (Except.ok (⟨dSet h.cache (bytesHex [b1, b2, b3]) (PyVal.dict
      (dSet [("member", PyVal.int memberId), ("seed", PyVal.int now), ("messages", PyVal.list [])]
        "messages" (PyVal.list [PyVal.dict [("role", PyVal.str "system"),
          ("content", PyVal.str (pyOr default fileText))]]))), h.redis⟩,
      bytesHex [b1, b2, b3]) : Except PyErr (ChatHistory × String)) =
      Except.ok (⟨dSet h.cache (bytesHex [b1, b2, b3]) (PyVal.dict
      [("member", PyVal.int memberId), ("seed", PyVal.int now),
       ("messages", PyVal.list [PyVal.dict [("role", PyVal.str "system"),
          ("content", PyVal.str (pyOr default fileText))]])]), h.redis⟩,
      bytesHex [b1, b2, b3]) from rfl] at hrun
  obtain ⟨hh, hk⟩ := Prod.mk.injEq .. ▸ Except.ok.inj hrun
  subst hk
  refine ⟨rfl, by rw [bytesHex_length]; rfl, bytesHex_all_hex _, ?_⟩
  subst hh
  simp only [get_history, dGet_dSet_self]
  rw [show dGet [("member", PyVal.int memberId), ("seed", PyVal.int now),
      ("messages", PyVal.list [PyVal.dict [("role", PyVal.str "system"),
        ("content", PyVal.str (pyOr default fileText))]])] "messages" =
      Option.some (PyVal.list [PyVal.dict [("role", PyVal.str "system"),
        ("content", PyVal.str (pyOr default fileText))]]) from rfl]
  rfl

/-- C5 amended witness: the concrete run of the counterexample input,
through the amended theorem. -/
theorem c5_thread_id_amended_witness :
    ("abcdef" : String) = bytesHex [171, 205, 239] ∧ "abcdef".length = 6 ∧
    ("abcdef".data.all fun ch => "0123456789abcdef".data.contains ch) = true ∧
    get_history c5_after "abcdef" = Except.ok (PyVal.list
      [construct_message "system" (pyOr Option.none "p") Option.none]) :=
  c5_thread_id_amended ⟨[], []⟩ 7 100 171 205 239 Option.none "p" c5_after "abcdef" rfl

/-- C9 counterexample: a terminal event carrying done but missing the
total_duration counter makes the timing step raise KeyError instead of
completing with a reported message (the formatter is irrelevant). -/
theorem c9_timing_counterexample :
    timing_step (fun _ => "") [("done", PyVal.bool true)] =
      Except.error (PyErr.keyError "total_duration") := rfl

/-- C9 amended: when the terminal event lacks a truthy done marker the
turn completes without a timings report; when done is truthy all four
timing counters are required: with all present the timings description
is reported, and the counters are read by direct subscription in the
order total_duration, load_duration, prompt_eval_duration,
eval_duration, so whichever of the four is the first absent one raises
KeyError for that field instead of completing with a reported
message (one conjunct per field). -/
theorem c9_timing_requires_all_fields (fmt : Int → String) (line : List (String × PyVal)) :
    (pyTruthyOpt (dGet line "done") = false → timing_step fmt line = Except.ok Option.none) ∧
    (∀ td ld ped ed : Int,
      pyTruthyOpt (dGet line "done") = true →
      dGet line "total_duration" = Option.some (PyVal.int td) →
      dGet line "load_duration" = Option.some (PyVal.int ld) →
      dGet line "prompt_eval_duration" = Option.some (PyVal.int ped) →
      dGet line "eval_duration" = Option.some (PyVal.int ed) →
      timing_step fmt line = Except.ok (Option.some
        ("Total: " ++ fmt td ++ "\nLoad: " ++ fmt ld ++
         "\nPrompt Eval: " ++ fmt ped ++ "\nEval: " ++ fmt ed))) ∧
    (pyTruthyOpt (dGet line "done") = true →
      dGet line "total_duration" = Option.none →
      timing_step fmt line = Except.error (PyErr.keyError "total_duration")) ∧
    (∀ td : Int,
      pyTruthyOpt (dGet line "done") = true →
      dGet line "total_duration" = Option.some (PyVal.int td) →
      dGet line "load_duration" = Option.none →
      timing_step fmt line = Except.error (PyErr.keyError "load_duration")) ∧
    (∀ td ld : Int,
      pyTruthyOpt (dGet line "done") = true →
      dGet line "total_duration" = Option.some (PyVal.int td) →
      dGet line "load_duration" = Option.some (PyVal.int ld) →
      dGet line "prompt_eval_duration" = Option.none →
      timing_step fmt line = Except.error (PyErr.keyError "prompt_eval_duration")) ∧
    (∀ td ld ped : Int,
      pyTruthyOpt (dGet line "done") = true →
      dGet line "total_duration" = Option.some (PyVal.int td) →
      dGet line "load_duration" = Option.some (PyVal.int ld) →
      dGet line "prompt_eval_duration" = Option.some (PyVal.int ped) →
      dGet line "eval_duration" = Option.none →
      timing_step fmt line = Except.error (PyErr.keyError "eval_duration")) := by
  refine ⟨fun hd => ?_, fun td ld ped ed hd h1 h2 h3 h4 => ?_, fun hd h1 => ?_,
    fun td hd h1 h2 => ?_, fun td ld hd h1 h2 h3 => ?_,
    fun td ld ped hd h1 h2 h3 h4 => ?_⟩ <;>
    simp [timing_step, *]

/-- C9 witness: concrete terminal events for every case of the amended
theorem: done falsy, all four counters present, and each of the four
counters being the first absent one. -/
theorem c9_timing_requires_all_fields_witness :
    timing_step (fun _ => "ns") [("done", PyVal.bool false)] = Except.ok Option.none ∧
    timing_step (fun _ => "ns")
      [("done", PyVal.int 1), ("total_duration", PyVal.int 1), ("load_duration", PyVal.int 2),
       ("prompt_eval_duration", PyVal.int 3), ("eval_duration", PyVal.int 4)] =
      Except.ok (Option.some "Total: ns\nLoad: ns\nPrompt Eval: ns\nEval: ns") ∧
    timing_step (fun _ => "ns") [("done", PyVal.bool true), ("eval_duration", PyVal.int 4)] =
      Except.error (PyErr.keyError "total_duration") ∧
    timing_step (fun _ => "ns") [("done", PyVal.bool true), ("total_duration", PyVal.int 1)] =
      Except.error (PyErr.keyError "load_duration") ∧
    timing_step (fun _ => "ns")
      [("done", PyVal.bool true), ("total_duration", PyVal.int 1),
       ("load_duration", PyVal.int 2)] =
      Except.error (PyErr.keyError "prompt_eval_duration") ∧
    timing_step (fun _ => "ns")
      [("done", PyVal.bool true), ("total_duration", PyVal.int 1),
       ("load_duration", PyVal.int 2), ("prompt_eval_duration", PyVal.int 3)] =
      Except.error (PyErr.keyError "eval_duration") :=
  ⟨(c9_timing_requires_all_fields _ _).1 rfl,
   (c9_timing_requires_all_fields _ _).2.1 1 2 3 4 rfl rfl rfl rfl rfl,
   (c9_timing_requires_all_fields _ _).2.2.1 rfl rfl,
   (c9_timing_requires_all_fields _ _).2.2.2.1 1 rfl rfl rfl,
   (c9_timing_requires_all_fields _ _).2.2.2.2.1 1 2 rfl rfl rfl rfl,
   (c9_timing_requires_all_fields _ _).2.2.2.2.2 1 2 3 rfl rfl rfl rfl rfl⟩

theorem add_message_ok (h : ChatHistory) (t role content : String)
    (imgs : Option (List String)) (kvs : List (String × PyVal)) (ms : List PyVal)
    (hT : dGet h.cache t = Option.some (PyVal.dict kvs))
    (hM : dGet kvs "messages" = Option.some (PyVal.list ms)) :
    add_message h t role content imgs = Except.ok
      ⟨dSet h.cache t (PyVal.dict (dSet kvs "messages"
        (PyVal.list (ms ++ [construct_message role content imgs])))), h.redis⟩ := by
  simp [add_message, hT, hM]

theorem stream_generate_persist_eq (h : ChatHistory) (id q : String)
    (imgs : Option (List String)) (chunks : List String) (cancelAfter : Option Nat)
    (kvs : List (String × PyVal)) (ms : List PyVal)
    (hT : dGet h.cache id = Option.some (PyVal.dict kvs))
    (hM : dGet kvs "messages" = Option.some (PyVal.list ms)) :
    stream_generate_persist h id q imgs chunks cancelAfter = Except.ok
      ⟨⟨dSet h.cache id (PyVal.dict (dSet kvs "messages" (PyVal.list (ms ++
          [construct_message "user" q imgs,
           construct_message "assistant" (String.join (if cancel_is_set cancelAfter 0 then []
             else consume_stream cancelAfter chunks 0)) Option.none])))),
        dSet h.redis ("threads:" ++ id) (PyVal.dict (dSet kvs "messages" (PyVal.list (ms ++
          [construct_message "user" q imgs,
           construct_message "assistant" (String.join (if cancel_is_set cancelAfter 0 then []
             else consume_stream cancelAfter chunks 0)) Option.none]))))⟩,
        String.join (if cancel_is_set cancelAfter 0 then []
          else consume_stream cancelAfter chunks 0), "Done!"⟩ := by
  simp [stream_generate_persist, save_thread, add_message_ok, hT, hM,
    dGet_dSet_self, dSet_dSet_self]

/-- C1 amended: when the cancellation flag is set before or during
consumption of the chat stream (after n chunks), consumption stops, but
the partially accumulated assistant output is NOT discarded: the user
turn and the partial assistant turn (the first n chunks joined) are
appended to the thread and save_thread runs, writing them to the durable
store, and the turn reports the normal completion title "Done!" rather
than a cancelled notice. -/
theorem c1_cancelled_turn_persists_partial (h : ChatHistory) (id q : String)
    (imgs : Option (List String)) (chunks : List String) (n : Nat)
    (kvs : List (String × PyVal)) (ms : List PyVal) (res : TurnResult)
    (hT : dGet h.cache id = Option.some (PyVal.dict kvs))
    (hM : dGet kvs "messages" = Option.some (PyVal.list ms))
    (hRun : stream_generate_persist h id q imgs chunks (Option.some n) = Except.ok res) :
    res.buffer = String.join (chunks.take n) ∧
    res.title = "Done!" ∧
    dGet res.hist.redis ("threads:" ++ id) = Option.some (PyVal.dict (dSet kvs "messages"
      (PyVal.list (ms ++ [construct_message "user" q imgs,
        construct_message "assistant" (String.join (chunks.take n)) Option.none])))) := by
  rw [stream_generate_persist_eq h id q imgs chunks (Option.some n) kvs ms hT hM,
    consumed_eq_take] at hRun
  cases Except.ok.inj hRun
  exact ⟨rfl, rfl, dGet_dSet_self _ _ _⟩

/-- The system message of the C1 scenario thread. -/
def c1_sys : PyVal := PyVal.dict [("role", PyVal.str "system"), ("content", PyVal.str "sys")]

/-- The C1 scenario start state: thread aaaa resident in memory with only
its system message; nothing saved yet. -/
def c1_start : ChatHistory :=
  ⟨[("aaaa", PyVal.dict [("member", PyVal.int 1), ("seed", PyVal.int 9),
      ("messages", PyVal.list [c1_sys])])], []⟩

/-- The ten expected chunks of the C1 scenario stream. -/
def c1_chunks : List String :=
  ["w1 ", "w2 ", "w3 ", "w4 ", "w5 ", "w6 ", "w7 ", "w8 ", "w9 ", "w10"]

/-- The thread value after the C1 cancelled turn: the partial assistant
buffer (first three chunks) was appended and persisted. -/
def c1_thread_after : PyVal := PyVal.dict
  [("member", PyVal.int 1), ("seed", PyVal.int 9),
   ("messages", PyVal.list [c1_sys,
     PyVal.dict [("role", PyVal.str "user"), ("content", PyVal.str "hi")],
     PyVal.dict [("role", PyVal.str "assistant"), ("content", PyVal.str "w1 w2 w3 ")]])]

/-- The store state after the C1 cancelled turn. -/
def c1_after : ChatHistory :=
  ⟨[("aaaa", c1_thread_after)], [("threads:aaaa", c1_thread_after)]⟩

/-- C1 counterexample: the cancellation flag set after 3 of 10 chunks
does not discard the buffer and does not skip save_thread: the turn
returns the partial buffer, reports the title "Done!" (no cancelled
notice on this path), and the durable store, empty before the turn, now
holds the thread with the partial assistant message appended. -/
theorem c1_cancelled_turn_counterexample :
    stream_generate_persist c1_start "aaaa" "hi" Option.none c1_chunks (Option.some 3) =
      Except.ok ⟨c1_after, "w1 w2 w3 ", "Done!"⟩ ∧
    dGet c1_start.redis "threads:aaaa" = Option.none ∧
    dGet c1_after.redis "threads:aaaa" = Option.some c1_thread_after :=
  ⟨rfl, rfl, rfl⟩

/-- C1 witness: the amended theorem applied to the concrete cancelled
run (flag set after 3 of 10 chunks). -/
theorem c1_cancelled_turn_persists_partial_witness :
    (TurnResult.mk c1_after "w1 w2 w3 " "Done!").buffer = String.join (c1_chunks.take 3) ∧
    (TurnResult.mk c1_after "w1 w2 w3 " "Done!").title = "Done!" ∧
    dGet (TurnResult.mk c1_after "w1 w2 w3 " "Done!").hist.redis ("threads:" ++ "aaaa") =
      Option.some (PyVal.dict (dSet
        [("member", PyVal.int 1), ("seed", PyVal.int 9), ("messages", PyVal.list [c1_sys])]
        "messages" (PyVal.list ([c1_sys] ++
          [construct_message "user" "hi" Option.none,
           construct_message "assistant" (String.join (c1_chunks.take 3)) Option.none])))) :=
  c1_cancelled_turn_persists_partial c1_start "aaaa" "hi" Option.none c1_chunks 3
    [("member", PyVal.int 1), ("seed", PyVal.int 9), ("messages", PyVal.list [c1_sys])]
    [c1_sys] (TurnResult.mk c1_after "w1 w2 w3 " "Done!") rfl rfl rfl

/-- The role field of a message dict. -/
def msg_role : PyVal → Option PyVal
  | PyVal.dict mkvs => dGet mkvs "role"
  | _ => Option.none

/-- The invariant of C10 for one thread: whenever the thread is resident
in the cache with a well-formed message list, its first message has role
system. -/
def first_is_system (h : ChatHistory) (t : String) : Prop :=
  ∀ kvs ms, dGet h.cache t = Option.some (PyVal.dict kvs) →
    dGet kvs "messages" = Option.some (PyVal.list ms) →
    ∃ m, ms.head? = Option.some m ∧ msg_role m = Option.some (PyVal.str "system")

theorem first_is_system_congr (h h2 : ChatHistory) (t : String)
    (hEq : dGet h2.cache t = dGet h.cache t) (hfs : first_is_system h t) :
    first_is_system h2 t := by
  intro kvs ms h1 h2m
  exact hfs kvs ms (hEq ▸ h1) h2m

theorem first_is_system_of_entry (h : ChatHistory) (t : String)
    (kvs0 : List (String × PyVal)) (ms0 : List PyVal) (m : PyVal)
    (hT : dGet h.cache t = Option.some (PyVal.dict kvs0))
    (hM : dGet kvs0 "messages" = Option.some (PyVal.list ms0))
    (hh : ms0.head? = Option.some m)
    (hr : msg_role m = Option.some (PyVal.str "system")) :
    first_is_system h t := by
  intro kvs ms h1 h2m
  rw [hT] at h1
  injection h1 with h1x
  injection h1x with h1y
  subst h1y
  rw [hM] at h2m
  injection h2m with h2x
  injection h2x with h2y
  subst h2y
  exact ⟨m, hh, hr⟩

/-- C10: immediately after create_thread the first message of the new
thread has role system, and the invariant is preserved by the other
History Store operations: add_message only appends (to any thread),
save_thread does not touch the cache, and load_thread leaves the cached
thread untouched whenever the loaded blob (a thread dict, whose keys are
member, seed and messages for every blob written by save_thread) has no
top-level entry under the thread id. -/
theorem c10_first_message_system :
    (∀ (h : ChatHistory) (memberId now : Int) (entropy : List Nat) (default : Option String)
        (fileText : String) (h2 : ChatHistory) (key : String),
      create_thread h memberId now entropy default fileText = Except.ok (h2, key) →
        first_is_system h2 key) ∧
    (∀ (h : ChatHistory) (t t2 role content : String) (imgs : Option (List String))
        (h2 : ChatHistory),
      add_message h t2 role content imgs = Except.ok h2 →
        first_is_system h t → first_is_system h2 t) ∧
    (∀ (h : ChatHistory) (t t2 : String) (h2 : ChatHistory),
      save_thread h t2 = Except.ok h2 → first_is_system h t → first_is_system h2 t) ∧
    (∀ (h : ChatHistory) (t t2 : String) (h2 : ChatHistory) (r : Option PyVal)
        (loaded : List (String × PyVal)),
      load_thread h t2 = Except.ok (h2, r) →
      dGet h.redis ("threads:" ++ t2) = Option.some (PyVal.dict loaded) →
      dGet loaded t = Option.none →
      first_is_system h t → first_is_system h2 t) := by
  refine ⟨?_, ?_, ?_, ?_⟩
  · intro h memberId now entropy default fileText h2 key hrun
    simp only [create_thread] at hrun
    rw [add_message_ok
      ⟨dSet h.cache (bytesHex entropy) (PyVal.dict [("member", PyVal.int memberId),
        ("seed", PyVal.int now), ("messages", PyVal.list [])]), h.redis⟩
      (bytesHex entropy) "system" (pyOr default fileText) Option.none
      [("member", PyVal.int memberId), ("seed", PyVal.int now), ("messages", PyVal.list [])]
      [] (dGet_dSet_self _ _ _) rfl] at hrun
    simp only [Except.ok.injEq, Prod.mk.injEq] at hrun
    obtain ⟨hh, hk⟩ := hrun
    subst hk
    subst hh
    exact first_is_system_of_entry _ _ _ _
      (construct_message "system" (pyOr default fileText) Option.none)
      (dGet_dSet_self _ _ _) rfl rfl rfl
  · intro h t t2 role content imgs h2 hrun hfs
    simp only [add_message] at hrun
    split at hrun
    · exact Except.noConfusion hrun
    · split at hrun
      · exact Except.noConfusion hrun
      · rename_i xv1 kvs2 heq xv2 ms2 heq2
        cases Except.ok.inj hrun
        by_cases hteq : t = t2
        · subst hteq
          intro kvs ms h1 h2m
          rw [show (⟨dSet h.cache t (PyVal.dict (dSet kvs2 "messages"
              (PyVal.list (ms2 ++ [construct_message role content imgs])))),
              h.redis⟩ : ChatHistory).cache = dSet h.cache t (PyVal.dict (dSet kvs2 "messages"
              (PyVal.list (ms2 ++ [construct_message role content imgs])))) from rfl,
            dGet_dSet_self] at h1
          injection h1 with h1x
          injection h1x with h1y
          subst h1y
          rw [dGet_dSet_self] at h2m
          injection h2m with h2x
          injection h2x with h2y
          subst h2y
          obtain ⟨m, hh, hr⟩ := hfs kvs2 ms2 heq heq2
          cases ms2 with
          | nil => exact Option.noConfusion hh
          | cons a tl =>
              injection hh with hma
              exact ⟨m, by rw [List.cons_append, List.head?_cons, hma], hr⟩
        · exact first_is_system_congr h _ t (dGet_dSet_ne h.cache t2 t _ hteq) hfs
      · exact Except.noConfusion hrun
    · exact Except.noConfusion hrun
  · intro h t t2 h2 hrun hfs
    simp only [save_thread] at hrun
    split at hrun
    · exact Except.noConfusion hrun
    · cases Except.ok.inj hrun
      exact first_is_system_congr h _ t rfl hfs
  · intro h t t2 h2 r loaded hrun hload hnone hfs
    simp only [load_thread, hload] at hrun
    split at hrun
    · exact Except.noConfusion hrun
    · rename_i c heq
      injection Except.ok.inj hrun with hh hr
      subst hh
      exact first_is_system_congr h _ t (dGet_dUpdate_none loaded h.cache t hnone) hfs

/-- The system message of the C10 witness thread. -/
def c10_sysm : PyVal := PyVal.dict [("role", PyVal.str "system"), ("content", PyVal.str "p")]

/-- The user message appended in the C10 witness. -/
def c10_userm : PyVal := PyVal.dict [("role", PyVal.str "user"), ("content", PyVal.str "hi")]

/-- The C10 witness state right after create_thread. -/
def c10_h1 : ChatHistory :=
  ⟨[("abcdef", PyVal.dict [("member", PyVal.int 7), ("seed", PyVal.int 100),
      ("messages", PyVal.list [c10_sysm])])], []⟩

/-- The C10 witness state after appending the user message. -/
def c10_h2 : ChatHistory :=
  ⟨[("abcdef", PyVal.dict [("member", PyVal.int 7), ("seed", PyVal.int 100),
      ("messages", PyVal.list [c10_sysm, c10_userm])])], []⟩

/-- The stored thread blob of the C10 witness. -/
def c10_loaded : List (String × PyVal) :=
  [("member", PyVal.int 7), ("seed", PyVal.int 100),
   ("messages", PyVal.list [c10_sysm, c10_userm])]

/-- The C10 witness state after save_thread. -/
def c10_h3 : ChatHistory := ⟨c10_h2.cache, [("threads:abcdef", PyVal.dict c10_loaded)]⟩

/-- The C10 witness state after load_thread: the blob fields were merged
at the top level of the cache, but the entry under the thread id is
untouched. -/
def c10_h4 : ChatHistory :=
  ⟨[("abcdef", PyVal.dict c10_loaded), ("member", PyVal.int 7), ("seed", PyVal.int 100),
    ("messages", PyVal.list [c10_sysm, c10_userm])], c10_h3.redis⟩

/-- C10 witness: the invariant holds through a concrete create, append,
save, load chain. -/
theorem c10_first_message_system_witness :
    first_is_system c10_h1 "abcdef" ∧ first_is_system c10_h2 "abcdef" ∧
    first_is_system c10_h3 "abcdef" ∧ first_is_system c10_h4 "abcdef" := by
  have hc := c10_first_message_system
  have w1 : first_is_system c10_h1 "abcdef" :=
    hc.1 ⟨[], []⟩ 7 100 [171, 205, 239] Option.none "p" c10_h1 "abcdef" rfl
  have w2 : first_is_system c10_h2 "abcdef" :=
    hc.2.1 c10_h1 "abcdef" "abcdef" "user" "hi" Option.none c10_h2 rfl w1
  have w3 : first_is_system c10_h3 "abcdef" :=
    hc.2.2.1 c10_h2 "abcdef" "abcdef" c10_h3 rfl w2
  have w4 : first_is_system c10_h4 "abcdef" :=
    hc.2.2.2 c10_h3 "abcdef" "abcdef" c10_h4 (Option.some (PyVal.dict c10_loaded))
      c10_loaded rfl rfl rfl w3
  exact ⟨w1, w2, w3, w4⟩

end Jimmy
